import Mathlib

/-!
Verification development for the Mapmaking repository (Streamlit AQI maps).

The numeric/geometric core of the repository is embedded shallowly over exact
rationals: `create_interpolation_grid` and `perform_interpolation` follow
`src/Create_Animated_Maps.py` (the same functions are duplicated verbatim in
`src/pages/2_multi_map_grid.py` and `src/pages/3_animator.py`), the inline
grid-and-mask construction of `src/pages/1_single_map.py` is embedded as
`single_map_inside_mask`, the session-state range computation as
`computeRange`, the GIF frame loop as `gif_frame_loop`, and the pandas
groupby iteration of the multi-map page as `groupby_keys`.

Shapely's `Polygon.contains` tests membership in the polygon's interior (a
point exactly on the boundary is NOT contained); it is embedded as
`polyContains`, the standard even-odd ray-crossing test guarded by an exact
on-boundary test. Matplotlib's `contourf` value-range behaviour is embedded
as `contourf_value_range`.
-/

/-- A point lies exactly on the closed segment from `a` to `b`:
collinear with the segment and within its bounding box. -/
def onSegment (p a b : ℚ × ℚ) : Bool :=
  decide ((b.1 - a.1) * (p.2 - a.2) = (b.2 - a.2) * (p.1 - a.1)) &&
  decide (min a.1 b.1 ≤ p.1) && decide (p.1 ≤ max a.1 b.1) &&
  decide (min a.2 b.2 ≤ p.2) && decide (p.2 ≤ max a.2 b.2)

/-- The edges of a polygon ring given by its vertex list (implicitly closed:
the last vertex connects back to the first). -/
def polyEdges (poly : List (ℚ × ℚ)) : List ((ℚ × ℚ) × (ℚ × ℚ)) :=
  match poly with
  | [] => []
  | v :: vs => List.zip (v :: vs) (vs ++ [v])

/-- The point lies exactly on the boundary of the polygon. -/
def onBoundary (poly : List (ℚ × ℚ)) (p : ℚ × ℚ) : Bool :=
  (polyEdges poly).any (fun e => onSegment p e.1 e.2)

/-- One step of the even-odd ray-casting test: the horizontal ray from `p`
to the right crosses the open edge from `a` to `b`. -/
def edgeCrosses (p a b : ℚ × ℚ) : Bool :=
  (decide (a.2 > p.2) != decide (b.2 > p.2)) &&
  decide (p.1 < (b.1 - a.1) * (p.2 - a.2) / (b.2 - a.2) + a.1)

/-- Parity of the number of polygon edges crossed by the rightward ray
from `p` (odd = inside for points not on the boundary). -/
def crossingParityOdd (poly : List (ℚ × ℚ)) (p : ℚ × ℚ) : Bool :=
  (polyEdges poly).foldl (fun acc e => if edgeCrosses p e.1 e.2 then !acc else acc) false

/-- Embedding of shapely `polygon.contains(Point(x, y))` as used at
`Create_Animated_Maps.py:132`: membership in the polygon's interior.
A point exactly on the boundary is not contained. -/
def polyContains (poly : List (ℚ × ℚ)) (p : ℚ × ℚ) : Bool :=
  !onBoundary poly p && crossingParityOdd poly p

/-- Boundary-inclusive containment, written from the spec's words
("boundary points count as inside") for comparison with the containment
the code actually uses; it differs from `polyContains` exactly on
boundary points. -/
def boundary_inclusive_contains (poly : List (ℚ × ℚ)) (p : ℚ × ℚ) : Bool :=
  onBoundary poly p || crossingParityOdd poly p

/-- A boundary GeoDataFrame: its list of geometry rows (polygon rings). -/
structure GeoBoundary where
  geoms : List (List (ℚ × ℚ))
deriving DecidableEq

/-- `gdf_boundary.total_bounds`: (minx, miny, maxx, maxy) over all
geometry vertices. -/
structure TotalBounds where
  minX : ℚ
  minY : ℚ
  maxX : ℚ
  maxY : ℚ
deriving DecidableEq

/-- Axis-aligned bounding box of all geometries of the boundary
(`gdf_boundary.total_bounds`). -/
def totalBounds (B : GeoBoundary) : TotalBounds :=
  match B.geoms.flatten with
  | [] => ⟨0, 0, 0, 0⟩
  | q :: qs =>
      ⟨qs.foldl (fun m r => min m r.1) q.1,
       qs.foldl (fun m r => min m r.2) q.2,
       qs.foldl (fun m r => max m r.1) q.1,
       qs.foldl (fun m r => max m r.2) q.2⟩

/-- `np.linspace(a, b, n)`: `n` evenly spaced values from `a` to `b`
inclusive (`[a]` for `n = 1`, `[]` for `n = 0`). -/
def linspace (a b : ℚ) (n : ℕ) : List ℚ :=
  if n ≤ 1 then (List.range n).map (fun _ => a)
  else (List.range n).map (fun i : ℕ => a + (b - a) * (i : ℚ) / ((n : ℚ) - 1))

/-- The x-axis lattice coordinates: `np.linspace(bounds[0], bounds[2], resolution)`. -/
def grid_xs (B : GeoBoundary) (resolution : ℕ) : List ℚ :=
  linspace (totalBounds B).minX (totalBounds B).maxX resolution

/-- The y-axis lattice coordinates: `np.linspace(bounds[1], bounds[3], resolution)`. -/
def grid_ys (B : GeoBoundary) (resolution : ℕ) : List ℚ :=
  linspace (totalBounds B).minY (totalBounds B).maxY resolution

/-- Embedding of `create_interpolation_grid` (`Create_Animated_Maps.py:124-134`,
duplicated at `2_multi_map_grid.py:119-129` and `3_animator.py:135-145`):
meshgrid of the linspace coordinates over the boundary's total bounds, and the
inside mask obtained by testing shapely containment of every lattice point in
the FIRST geometry row `gdf_boundary.geometry.iloc[0]`.
Returns `(xi, yi, inside_mask)` with `xi[r][c] = xs[c]`, `yi[r][c] = ys[r]`. -/
def create_interpolation_grid (B : GeoBoundary) (resolution : ℕ) :
    List (List ℚ) × List (List ℚ) × List (List Bool) :=
  ((grid_ys B resolution).map (fun _ => grid_xs B resolution),
   (grid_ys B resolution).map (fun y => (grid_xs B resolution).map (fun _ => y)),
   (grid_ys B resolution).map (fun y => (grid_xs B resolution).map
     (fun x => polyContains (B.geoms.headD []) (x, y))))

/-- Containment in the union of all boundary geometries, modelling
`gdf_boundary.geometry.union_all().contains(Point(x, y))` at
`1_single_map.py:166-168`: the point lies in the interior of some
geometry row. -/
def union_contains (geoms : List (List (ℚ × ℚ))) (p : ℚ × ℚ) : Bool :=
  geoms.any (fun g => polyContains g p)

/-- Embedding of the inline mask construction of the single-map page
(`1_single_map.py:161-168`): same linspace/meshgrid lattice, but containment
tested against the union of ALL boundary geometries. -/
def single_map_inside_mask (B : GeoBoundary) (resolution : ℕ) : List (List Bool) :=
  (grid_ys B resolution).map (fun y => (grid_xs B resolution).map
    (fun x => union_contains B.geoms (x, y)))

/-- Row-column lookup into a list-of-rows lattice. -/
def lookup2 {α : Type} (g : List (List α)) (r c : ℕ) : Option α :=
  g[r]?.bind (fun row => row[c]?)

/-- One cell of the masked ScalarField returned by `perform_interpolation`:
`value` is the backing array entry (`none` models the NaN that
`np.full_like(xi, np.nan)` put there), `masked` is the mask bit of
`np.ma.masked_where(~inside_mask, zi_full)`. -/
structure MaskedCell where
  value : Option ℚ
  masked : Bool
deriving DecidableEq

/-- Pointwise combination of three lattices (the shapes agree in every use). -/
def zipWith3 {α β γ δ : Type} (f : α → β → γ → δ) : List α → List β → List γ → List δ
  | a :: as, b :: bs, c :: cs => f a b c :: zipWith3 f as bs cs
  | _, _, _ => []

/-- One cell of `perform_interpolation`'s result: inside cells receive the
RBF value (`zi_full[inside_mask] = zi_rbf`), outside cells keep the NaN
backing value and are masked by `masked_where(~inside_mask, zi_full)`. -/
def interpCell (rbf : ℚ → ℚ → ℚ) (x y : ℚ) (m : Bool) : MaskedCell :=
  if m then ⟨some (rbf x y), false⟩ else ⟨none, true⟩

/-- Embedding of `perform_interpolation` (`Create_Animated_Maps.py:136-147`,
duplicated at `2_multi_map_grid.py:131-142` and `3_animator.py:147-158`).
The fitted RBF model is a function parameter (its fitting is delegated to
`scipy.interpolate.Rbf`, outside the repository); the function evaluates it
at the masked-in lattice points, fills NaN elsewhere, and masks the
complement of `inside_mask`. -/
def perform_interpolation (rbf : ℚ → ℚ → ℚ) (xi yi : List (List ℚ))
    (inside_mask : List (List Bool)) : List (List MaskedCell) :=
  zipWith3 (fun xr yr mr => zipWith3 (interpCell rbf) xr yr mr) xi yi inside_mask

/-- Embedding of the GIF frame loop (`Create_Animated_Maps.py:371-390`,
`3_animator.py:349-368`): iterate the selected `months` list in its given
order; when the month's sub-sample-set is nonempty append a frame for it,
otherwise do nothing. The second component collects the warnings the loop
emits — the loop body contains no `st.warning` call, so it stays empty. -/
def gif_frame_loop (months : List ℕ) (month_has_data : ℕ → Bool) :
    List ℕ × List String :=
  months.foldl
    (fun acc month => if month_has_data month then (acc.1 ++ [month], acc.2) else acc)
    ([], [])

/-- Embedding of the single-month display path
(`Create_Animated_Maps.py:329,420-421`, `3_animator.py:314,394-395`): the
currently selected month is rendered when it has data, and a warning is
shown when it does not. -/
def selected_month_warning (selected : ℕ) (month_has_data : ℕ → Bool) : List String :=
  if month_has_data selected then []
  else ["No data available for the selected month"]

/-- Lexicographic order on (year, month) group keys. -/
def keyLE (a b : ℕ × ℕ) : Prop :=
  a.1 < b.1 ∨ (a.1 = b.1 ∧ a.2 ≤ b.2)

instance : DecidableRel keyLE := fun a b => by
  unfold keyLE; infer_instance

instance : IsTotal (ℕ × ℕ) keyLE :=
  ⟨by intro a b; unfold keyLE; omega⟩

instance : IsTrans (ℕ × ℕ) keyLE :=
  ⟨by intro a b c; unfold keyLE; omega⟩

/-- Embedding of `gdf_points.groupby(['year', 'month'])` iteration at
`2_multi_map_grid.py:249,266`: pandas `groupby` with its default `sort=True`
yields the distinct keys in ascending lexicographic order, independent of
the row order of the frame. -/
def groupby_keys (keys : List (ℕ × ℕ)) : List (ℕ × ℕ) :=
  List.insertionSort keyLE keys.dedup

/-- Embedding of the session-state range computation
(`Create_Animated_Maps.py:307-308`, `3_animator.py:293-294`, and
`2_multi_map_grid.py:263-264`): `df[data_col].min()` and `df[data_col].max()`
over the whole sample set; `none` when there are no values. -/
def computeRange : List ℚ → Option (ℚ × ℚ)
  | [] => none
  | v :: vs => some (vs.foldl min v, vs.foldl max v)

/-- The `levels` argument of a `contourf` call: either a requested number of
levels or an explicit list of level values. -/
inductive LevelsSpec where
  | count (n : ℕ)
  | values (vs : List ℚ)
deriving DecidableEq

/-- Minimum of a value list (0 for the empty list, unused). -/
def listMin : List ℚ → ℚ
  | [] => 0
  | v :: vs => vs.foldl min v

/-- Maximum of a value list (0 for the empty list, unused). -/
def listMax : List ℚ → ℚ
  | [] => 0
  | v :: vs => vs.foldl max v

/-- Models the effective (vmin, vmax) of a matplotlib `contourf` call:
explicit `vmin`/`vmax` arguments win; otherwise an explicit levels array
fixes the range; otherwise the range is autoscaled from the frame's own
data. -/
def contourf_value_range (levels : LevelsSpec) (vmin vmax : Option ℚ)
    (frame_data : List ℚ) : ℚ × ℚ :=
  match levels with
  | .values vs => (vmin.getD (listMin vs), vmax.getD (listMax vs))
  | .count _ => (vmin.getD (listMin frame_data), vmax.getD (listMax frame_data))

/-- The value range used by the `contourf` call in `create_plot`
(`Create_Animated_Maps.py:161-162`, `3_animator.py:170-171`):
`levels = np.linspace(vmin, vmax, 20)` together with explicit
`vmin=vmin, vmax=vmax`. -/
def create_plot_value_range (vmin vmax : ℚ) (frame_data : List ℚ) : ℚ × ℚ :=
  contourf_value_range (.values (linspace vmin vmax 20)) (some vmin) (some vmax) frame_data

/-- The value range used by the `contourf` call in `plot_map`
(`2_multi_map_grid.py:152`): `levels = contour_levels` (an integer count),
with no `vmin`/`vmax` arguments, so the range autoscales to the frame's
own data. -/
def plot_map_value_range (contour_levels : ℕ) (frame_data : List ℚ) : ℚ × ℚ :=
  contourf_value_range (.count contour_levels) none none frame_data

/-- Modelled from the spec: the repository delegates RBF fitting to
`scipy.interpolate.Rbf`, whose code is not under `src/`. Per spec §4.2 the
fit "solves a linear system expressing the interpolant as a weighted sum of
kernel evaluations at sample locations", with the smoothing parameter
"blended into the linear system's diagonal". This is the system matrix:
kernel evaluations between sample locations, plus `smoothing` on the
diagonal. -/
def rbfSystemMatrix (n : ℕ) (kernel : ℚ × ℚ → ℚ × ℚ → ℚ)
    (samples : Fin n → ℚ × ℚ) (smoothing : ℚ) : Matrix (Fin n) (Fin n) ℚ :=
  Matrix.of fun j i => kernel (samples j) (samples i) + (if j = i then smoothing else 0)

/-- Modelled from the spec: the fitted interpolant is the weighted sum of
kernel evaluations at the sample locations. -/
def rbfEval (n : ℕ) (kernel : ℚ × ℚ → ℚ × ℚ → ℚ) (samples : Fin n → ℚ × ℚ)
    (w : Fin n → ℚ) (p : ℚ × ℚ) : ℚ :=
  ∑ i, w i * kernel p (samples i)

/-- Modelled from the spec: the weight vector `w` produced by a successful
fit solves the linear system against the sample values `d`. -/
def rbfFitSolves (n : ℕ) (kernel : ℚ × ℚ → ℚ × ℚ → ℚ) (samples : Fin n → ℚ × ℚ)
    (smoothing : ℚ) (w d : Fin n → ℚ) : Prop :=
  (rbfSystemMatrix n kernel samples smoothing).mulVec w = d

/-- A 2 × 2 unit square boundary with a single geometry row. -/
def unitSquareB : GeoBoundary :=
  ⟨[[(0, 0), (2, 0), (2, 2), (0, 2)]]⟩

/-- A zero-area boundary: its single geometry is a degenerate ring on a
horizontal segment. -/
def segmentB : GeoBoundary :=
  ⟨[[(0, 0), (4, 0)]]⟩

/-- A boundary with two geometry rows: two disjoint 2 × 2 squares. -/
def twoSquaresB : GeoBoundary :=
  ⟨[[(0, 0), (2, 0), (2, 2), (0, 2)], [(4, 0), (6, 0), (6, 2), (4, 2)]]⟩

/-- The default month selection of the sidebar multiselect
(`list(range(1, 13))`). -/
def monthsDefault : List ℕ :=
  [1, 2, 3, 4, 5, 6, 7, 8, 9, 10, 11, 12]

/-- The delta kernel used by the concrete RBF witness: weight 1 at the
sample's own location, 0 elsewhere. -/
def deltaKernel : ℚ × ℚ → ℚ × ℚ → ℚ :=
  fun p q => if p = q then 1 else 0

/-- Two distinct sample locations for the RBF witness. -/
def samplePts2 : Fin 2 → ℚ × ℚ :=
  ![(0, 0), (1, 0)]

/-- The two sample values for the RBF witness. -/
def sampleVals2 : Fin 2 → ℚ :=
  ![10, 20]

/-! ### General lemmas about the embedded operations -/

theorem linspace_length (a b : ℚ) (n : ℕ) : (linspace a b n).length = n := by
  unfold linspace; split <;> rw [List.length_map, List.length_range]

theorem foldl_min_le_init (l : List ℚ) : ∀ v : ℚ, l.foldl min v ≤ v := by
  induction l with
  | nil => intro v; exact le_refl v
  | cons a l ih =>
      intro v
      exact le_trans (ih (min v a)) (min_le_left v a)

theorem init_le_foldl_max (l : List ℚ) : ∀ v : ℚ, v ≤ l.foldl max v := by
  induction l with
  | nil => intro v; exact le_refl v
  | cons a l ih =>
      intro v
      exact le_trans (le_max_left v a) (ih (max v a))

theorem foldl_min_all_eq (l : List ℚ) : ∀ v : ℚ, (∀ u ∈ l, u = v) → l.foldl min v = v := by
  induction l with
  | nil => intro v _; rfl
  | cons a l ih =>
      intro v h
      have ha : a = v := h a (List.mem_cons_self a l)
      have hl : ∀ u ∈ l, u = v := fun u hu => h u (List.mem_cons_of_mem a hu)
      rw [List.foldl_cons, ha, min_self]
      exact ih v hl

theorem foldl_max_all_eq (l : List ℚ) : ∀ v : ℚ, (∀ u ∈ l, u = v) → l.foldl max v = v := by
  induction l with
  | nil => intro v _; rfl
  | cons a l ih =>
      intro v h
      have ha : a = v := h a (List.mem_cons_self a l)
      have hl : ∀ u ∈ l, u = v := fun u hu => h u (List.mem_cons_of_mem a hu)
      rw [List.foldl_cons, ha, max_self]
      exact ih v hl

theorem gif_frame_loop_eq (months : List ℕ) (month_has_data : ℕ → Bool) :
    gif_frame_loop months month_has_data = (months.filter month_has_data, []) := by
  have key : ∀ (ms : List ℕ) (acc : List ℕ × List String),
      ms.foldl (fun acc month =>
          if month_has_data month then (acc.1 ++ [month], acc.2) else acc) acc
        = (acc.1 ++ ms.filter month_has_data, acc.2) := by
    intro ms
    induction ms with
    | nil => intro acc; simp
    | cons m ms ih =>
        intro acc
        by_cases hm : month_has_data m = true
        · simp [List.foldl_cons, hm, ih, List.filter_cons]
        · have hm' : month_has_data m = false := by simpa using hm
          simp [List.foldl_cons, hm', ih, List.filter_cons]
  unfold gif_frame_loop
  simpa using key months ([], [])

theorem polyContains_eq_false_of_onBoundary (poly : List (ℚ × ℚ)) (p : ℚ × ℚ)
    (h : onBoundary poly p = true) : polyContains poly p = false := by
  simp [polyContains, h]

/-! ### C2 -/

/-- C2: For every series of frames rendered together, every frame is
rendered with one shared (vmin, vmax) equal to the global data range.
Evaluation of the embedded rendering calls at the failing input: the
animation pages (`create_plot`) do pass a shared range through to
`contourf`, but the multi-map-grid page (`plot_map`) passes neither the
computed global range nor shared levels, so each grid frame autoscales to
its own data — two frames with data `[10]` and `[30]` get ranges
`(10, 10)` and `(30, 30)`, neither equal to the global `(10, 30)`. -/
theorem c2_theorem :
    plot_map_value_range 20 [10] = (10, 10) ∧
    plot_map_value_range 20 [30] = (30, 30) ∧
    plot_map_value_range 20 [10] ≠ plot_map_value_range 20 [30] ∧
    plot_map_value_range 20 [10] ≠ (10, 30) ∧
    (∀ (vmin vmax : ℚ) (frame_data : List ℚ),
      create_plot_value_range vmin vmax frame_data = (vmin, vmax)) := by
  refine ⟨rfl, rfl, ?_, ?_, fun vmin vmax frame_data => rfl⟩
  · intro h
    have : (10 : ℚ) = 30 := congrArg Prod.fst h
    norm_num at this
  · intro h
    have : (10 : ℚ) = 30 := congrArg Prod.snd h
    norm_num at this

/-! ### C4 -/

/-- C4 counterexample: on the all-equal value sequence `[5, 5]` the computed
range is `(5, 5)`, so `vmax` is not strictly greater than `vmin` and no
epsilon widening happens. -/
theorem c4_counterexample :
    computeRange [(5 : ℚ), 5] = some (5, 5) ∧ ¬ (5 : ℚ) < 5 := by
  constructor
  · simp [computeRange]
  · exact lt_irrefl 5

/-- C4 (amended): for every non-empty value sequence the computed range
satisfies `vmin ≤ vmax`, and when all values are equal it satisfies
`vmin = vmax` (the range is degenerate; no epsilon widening occurs). -/
theorem c4_theorem (v : ℚ) (vs : List ℚ) (r : ℚ × ℚ)
    (h : computeRange (v :: vs) = some r) :
    r.1 ≤ r.2 ∧ ((∀ u ∈ v :: vs, u = v) → r.1 = r.2) := by
  have hr : r = (vs.foldl min v, vs.foldl max v) := by
    simpa [computeRange] using h.symm
  subst hr
  constructor
  · exact le_trans (foldl_min_le_init vs v) (init_le_foldl_max vs v)
  · intro hall
    have hl : ∀ u ∈ vs, u = v := fun u hu => hall u (List.mem_cons_of_mem v hu)
    simp [foldl_min_all_eq vs v hl, foldl_max_all_eq vs v hl]

/-- C4 witness: the amended theorem applied to the concrete sequence `[1, 3]`. -/
theorem c4_witness :
    computeRange [(1 : ℚ), 3] = some (1, 3) ∧
    ((1 : ℚ), (3 : ℚ)).1 ≤ ((1 : ℚ), (3 : ℚ)).2 ∧
    ((∀ u ∈ [(1 : ℚ), 3], u = 1) → ((1 : ℚ), (3 : ℚ)).1 = ((1 : ℚ), (3 : ℚ)).2) := by
  have h : computeRange [(1 : ℚ), 3] = some (1, 3) := by
    simp [computeRange]
  exact ⟨h, c4_theorem 1 [3] (1, 3) h⟩

/-! ### C5 -/

/-- C5 counterexample: with months `[1, 2]` selected and data only in
month 1, the GIF frame loop produces the single frame for month 1 and
emits no warning at all — the empty partition 2 is silently dropped,
contradicting the claim that it is reported. -/
theorem c5_counterexample :
    (gif_frame_loop [1, 2] (fun m => decide (m = 1))).1 = [1] ∧
    (gif_frame_loop [1, 2] (fun m => decide (m = 1))).2 = [] := by
  rw [gif_frame_loop_eq]
  constructor <;> rfl

/-- C5 (amended): the GIF frame loop skips every selected partition whose
sub-sample-set is empty, producing exactly the selected months with data in
selection order, and reports nothing — the loop body emits no warnings; a
warning is shown only by the separate single-month display path when the
currently selected month itself has no data. -/
theorem c5_theorem (months : List ℕ) (month_has_data : ℕ → Bool) (selected : ℕ) :
    (gif_frame_loop months month_has_data).1 = months.filter month_has_data ∧
    (gif_frame_loop months month_has_data).2 = [] ∧
    (month_has_data selected = false →
      selected_month_warning selected month_has_data ≠ []) := by
  refine ⟨by rw [gif_frame_loop_eq], by rw [gif_frame_loop_eq], ?_⟩
  intro h
  simp [selected_month_warning, h]

/-- C5 witness: the amended theorem applied to months `[1, 2]` with data
only in month 1 and month 2 selected for single display. -/
theorem c5_witness :
    (gif_frame_loop [1, 2] (fun m => decide (m = 1))).1 =
      [1, 2].filter (fun m => decide (m = 1)) ∧
    (gif_frame_loop [1, 2] (fun m => decide (m = 1))).2 = [] ∧
    ((fun m => decide (m = 1)) 2 = false →
      selected_month_warning 2 (fun m => decide (m = 1)) ≠ []) :=
  c5_theorem [1, 2] (fun m => decide (m = 1)) 2

/-! ### C6 -/

/-- C6 counterexample: `create_interpolation_grid` called with a zero-area
(degenerate segment) boundary and resolution 1 (< 2) is not rejected: it
returns the 1 × 1 coordinate grids and mask. -/
theorem c6_counterexample :
    create_interpolation_grid segmentB 1 = ([[0]], [[0]], [[false]]) := by
  norm_num [create_interpolation_grid, grid_xs, grid_ys, totalBounds, segmentB, linspace,
    polyContains, onBoundary, polyEdges, onSegment, crossingParityOdd, edgeCrosses,
    List.range_succ]

/-- C6 (amended): grid/mask construction performs no input validation: for
every boundary and every resolution — including resolution < 2 and
zero-area boundaries — `create_interpolation_grid` returns a
resolution × resolution coordinate grid and inside mask rather than
rejecting the call with a configuration error. -/
theorem c6_theorem (B : GeoBoundary) (resolution : ℕ) :
    (create_interpolation_grid B resolution).2.2.length = resolution ∧
    ∀ row ∈ (create_interpolation_grid B resolution).2.2, row.length = resolution := by
  constructor
  · simp only [create_interpolation_grid, List.length_map]
    exact linspace_length _ _ _
  · intro row hrow
    simp only [create_interpolation_grid, List.mem_map] at hrow
    obtain ⟨y, _, hrow⟩ := hrow
    rw [← hrow, List.length_map]
    exact linspace_length _ _ _

/-- C6 witness: the amended theorem at the zero-area boundary and
resolution 1. -/
theorem c6_witness :
    (create_interpolation_grid segmentB 1).2.2.length = 1 ∧
    ∀ row ∈ (create_interpolation_grid segmentB 1).2.2, row.length = 1 :=
  c6_theorem segmentB 1

/-! ### C8 -/

/-- C8: `create_interpolation_grid` is a deterministic function of its
inputs: two calls on equal boundaries and equal resolutions return
identical coordinate grids and identical inside masks. -/
theorem c8_theorem (B₁ B₂ : GeoBoundary) (r₁ r₂ : ℕ)
    (hB : B₁ = B₂) (hr : r₁ = r₂) :
    create_interpolation_grid B₁ r₁ = create_interpolation_grid B₂ r₂ := by
  rw [hB, hr]

/-- C8 witness: two calls on the unit-square boundary at resolution 3
return identical results. -/
theorem c8_witness :
    unitSquareB = unitSquareB ∧ (3 : ℕ) = 3 ∧
    create_interpolation_grid unitSquareB 3 = create_interpolation_grid unitSquareB 3 :=
  ⟨rfl, rfl, c8_theorem unitSquareB unitSquareB 3 3 rfl rfl⟩

theorem grid_mask_lookup (B : GeoBoundary) (res r c : ℕ) (x y : ℚ)
    (hx : lookup2 (create_interpolation_grid B res).1 r c = some x)
    (hy : lookup2 (create_interpolation_grid B res).2.1 r c = some y) :
    lookup2 (create_interpolation_grid B res).2.2 r c =
      some (polyContains (B.geoms.headD []) (x, y)) := by
  unfold lookup2 create_interpolation_grid at hx hy ⊢
  cases hyr : (grid_ys B res)[r]? with
  | none =>
      rw [List.getElem?_map, hyr] at hx
      simp at hx
  | some y0 =>
      rw [List.getElem?_map, hyr] at hx hy ⊢
      simp only [Option.map_some', Option.some_bind] at hx hy ⊢
      rw [List.getElem?_map, hx] at hy
      simp only [Option.map_some', Option.some_inj] at hy
      rw [List.getElem?_map, hx]
      simp only [Option.map_some', hy]

theorem single_mask_lookup (B : GeoBoundary) (res r c : ℕ) (x y : ℚ)
    (hx : lookup2 (create_interpolation_grid B res).1 r c = some x)
    (hy : lookup2 (create_interpolation_grid B res).2.1 r c = some y) :
    lookup2 (single_map_inside_mask B res) r c =
      some (union_contains B.geoms (x, y)) := by
  unfold lookup2 at hx hy ⊢
  unfold create_interpolation_grid at hx hy
  unfold single_map_inside_mask
  cases hyr : (grid_ys B res)[r]? with
  | none =>
      rw [List.getElem?_map, hyr] at hx
      simp at hx
  | some y0 =>
      rw [List.getElem?_map, hyr] at hx hy ⊢
      simp only [Option.map_some', Option.some_bind] at hx hy ⊢
      rw [List.getElem?_map, hx] at hy
      simp only [Option.map_some', Option.some_inj] at hy
      rw [List.getElem?_map, hx]
      simp only [Option.map_some', hy]

/-! ### C1 -/

/-- C1 counterexample: on the unit-square boundary at resolution 3, the
lattice point at row 1, column 0 is `(0, 1)`, which lies exactly on the
polygon's boundary and is inside under boundary-inclusive containment,
yet the inside mask produced by `create_interpolation_grid` marks it
outside. -/
theorem c1_counterexample :
    lookup2 (create_interpolation_grid unitSquareB 3).1 1 0 = some 0 ∧
    lookup2 (create_interpolation_grid unitSquareB 3).2.1 1 0 = some 1 ∧
    lookup2 (create_interpolation_grid unitSquareB 3).2.2 1 0 = some false ∧
    boundary_inclusive_contains (unitSquareB.geoms.headD []) (0, 1) = true := by
  refine ⟨?_, ?_, ?_, ?_⟩ <;>
    norm_num [lookup2, create_interpolation_grid, grid_xs, grid_ys, totalBounds,
      unitSquareB, linspace, polyContains, boundary_inclusive_contains, onBoundary,
      polyEdges, onSegment, crossingParityOdd, edgeCrosses, List.range_succ]

/-- C1 (amended): the inside mask marks a lattice point as inside exactly
when the point lies in the interior of the (first) boundary polygon under
shapely's boundary-EXCLUSIVE containment: a lattice point lying exactly on
the polygon's boundary counts as outside. -/
theorem c1_theorem (B : GeoBoundary) (res r c : ℕ) (x y : ℚ)
    (hx : lookup2 (create_interpolation_grid B res).1 r c = some x)
    (hy : lookup2 (create_interpolation_grid B res).2.1 r c = some y) :
    lookup2 (create_interpolation_grid B res).2.2 r c =
      some (polyContains (B.geoms.headD []) (x, y)) ∧
    (onBoundary (B.geoms.headD []) (x, y) = true →
      lookup2 (create_interpolation_grid B res).2.2 r c = some false) := by
  refine ⟨grid_mask_lookup B res r c x y hx hy, ?_⟩
  intro hb
  rw [grid_mask_lookup B res r c x y hx hy,
    polyContains_eq_false_of_onBoundary (B.geoms.headD []) (x, y) hb]

/-- C1 witness: the amended theorem at the unit square, resolution 3,
lattice point `(0, 1)` (row 1, column 0), a boundary point. -/
theorem c1_witness :
    lookup2 (create_interpolation_grid unitSquareB 3).1 1 0 = some 0 ∧
    lookup2 (create_interpolation_grid unitSquareB 3).2.1 1 0 = some 1 ∧
    (lookup2 (create_interpolation_grid unitSquareB 3).2.2 1 0 =
        some (polyContains (unitSquareB.geoms.headD []) (0, 1)) ∧
      (onBoundary (unitSquareB.geoms.headD []) (0, 1) = true →
        lookup2 (create_interpolation_grid unitSquareB 3).2.2 1 0 = some false)) := by
  have hx : lookup2 (create_interpolation_grid unitSquareB 3).1 1 0 = some 0 := by
    norm_num [lookup2, create_interpolation_grid, grid_xs, grid_ys, totalBounds,
      unitSquareB, linspace, List.range_succ]
  have hy : lookup2 (create_interpolation_grid unitSquareB 3).2.1 1 0 = some 1 := by
    norm_num [lookup2, create_interpolation_grid, grid_xs, grid_ys, totalBounds,
      unitSquareB, linspace, List.range_succ]
  exact ⟨hx, hy, c1_theorem unitSquareB 3 1 0 0 1 hx hy⟩

/-! ### C3 -/

theorem zipWith3_getElem? {α β γ δ : Type} (f : α → β → γ → δ) :
    ∀ (as : List α) (bs : List β) (cs : List γ) (i : ℕ),
      (zipWith3 f as bs cs)[i]? =
        as[i]?.bind fun a => bs[i]?.bind fun b => cs[i]?.map fun c => f a b c := by
  intro as
  induction as with
  | nil => intro bs cs i; simp [zipWith3]
  | cons a as ih =>
      intro bs cs i
      cases bs with
      | nil => cases i <;> simp [zipWith3]
      | cons b bs =>
          cases cs with
          | nil => cases i <;> simp [zipWith3]
          | cons c cs =>
              cases i with
              | zero => simp [zipWith3]
              | succ i => simpa [zipWith3] using ih bs cs i

/-- C3: every cell of the ScalarField returned by `perform_interpolation`
whose inside-mask entry is false is masked with a NaN (undefined) backing
value, never a finite fallback; the masked cells are exactly the complement
of the inside mask (`cell.masked = !m` in both directions). -/
theorem c3_theorem (rbf : ℚ → ℚ → ℚ) (xi yi : List (List ℚ))
    (inside_mask : List (List Bool)) (r c : ℕ) (m : Bool) (cell : MaskedCell)
    (hm : lookup2 inside_mask r c = some m)
    (hcell : lookup2 (perform_interpolation rbf xi yi inside_mask) r c = some cell) :
    cell.masked = !m ∧ (cell.masked = true → cell.value = none) := by
  unfold lookup2 at hm hcell
  unfold perform_interpolation at hcell
  rw [zipWith3_getElem?] at hcell
  cases hxr : xi[r]? with
  | none => rw [hxr] at hcell; simp at hcell
  | some xr =>
      rw [hxr] at hcell
      cases hyr : yi[r]? with
      | none => rw [hyr] at hcell; simp at hcell
      | some yr =>
          rw [hyr] at hcell
          cases hmr : inside_mask[r]? with
          | none => rw [hmr] at hcell; simp at hcell
          | some mr =>
              rw [hmr] at hcell
              rw [hmr] at hm
              simp only [Option.some_bind, Option.map_some', Option.some_bind] at hcell hm
              rw [zipWith3_getElem?] at hcell
              cases hxc : xr[c]? with
              | none => rw [hxc] at hcell; simp at hcell
              | some x =>
                  rw [hxc] at hcell
                  cases hyc : yr[c]? with
                  | none => rw [hyc] at hcell; simp at hcell
                  | some y =>
                      rw [hyc, hm] at hcell
                      simp only [Option.some_bind, Option.map_some',
                        Option.some_inj] at hcell
                      rw [← hcell]
                      cases m <;> simp [interpCell]

/-- C3 witness: the theorem at a concrete 1 × 2 lattice whose second cell
is outside the mask. -/
theorem c3_witness :
    lookup2 [[true, false]] 0 1 = some false ∧
    lookup2 (perform_interpolation (fun x y => x + y) [[1, 2]] [[3, 3]] [[true, false]]) 0 1 =
      some ⟨none, true⟩ ∧
    ((⟨none, true⟩ : MaskedCell).masked = !false ∧
      ((⟨none, true⟩ : MaskedCell).masked = true →
        (⟨none, true⟩ : MaskedCell).value = none)) := by
  have hm : lookup2 [[true, false]] 0 1 = some false := rfl
  have hcell : lookup2
      (perform_interpolation (fun x y => x + y) [[1, 2]] [[3, 3]] [[true, false]]) 0 1 =
      some ⟨none, true⟩ := rfl
  exact ⟨hm, hcell,
    c3_theorem (fun x y => x + y) [[1, 2]] [[3, 3]] [[true, false]] 0 1 false ⟨none, true⟩ hm hcell⟩

/-! ### C10 -/

/-- C10: in the animated-maps, multi-map-grid and animator pages the inside
mask tests containment only against the first geometry row: a lattice point
inside some member geometry but not inside the first one is marked outside
by `create_interpolation_grid`, while the single-map page's mask, which
tests the union of all geometries, marks the same lattice point inside. -/
theorem c10_theorem (B : GeoBoundary) (res r c : ℕ) (x y : ℚ) (g : List (ℚ × ℚ))
    (hx : lookup2 (create_interpolation_grid B res).1 r c = some x)
    (hy : lookup2 (create_interpolation_grid B res).2.1 r c = some y)
    (hg : g ∈ B.geoms)
    (hin : polyContains g (x, y) = true)
    (hhead : polyContains (B.geoms.headD []) (x, y) = false) :
    lookup2 (create_interpolation_grid B res).2.2 r c = some false ∧
    lookup2 (single_map_inside_mask B res) r c = some true := by
  constructor
  · rw [grid_mask_lookup B res r c x y hx hy, hhead]
  · rw [single_mask_lookup B res r c x y hx hy]
    have hu : union_contains B.geoms (x, y) = true := by
      unfold union_contains
      rw [List.any_eq_true]
      exact ⟨g, hg, hin⟩
    rw [hu]

/-- C10 witness: two disjoint squares; the lattice point `(5, 1)`
(row 3, column 5 at resolution 7) is strictly inside the second square and
outside the first; the shared-grid mask marks it outside while the
single-map mask marks it inside. -/
theorem c10_witness :
    lookup2 (create_interpolation_grid twoSquaresB 7).1 3 5 = some 5 ∧
    lookup2 (create_interpolation_grid twoSquaresB 7).2.1 3 5 = some 1 ∧
    [(4, 0), (6, 0), (6, 2), (4, 2)] ∈ twoSquaresB.geoms ∧
    polyContains [(4, 0), (6, 0), (6, 2), (4, 2)] (5, 1) = true ∧
    polyContains (twoSquaresB.geoms.headD []) (5, 1) = false ∧
    (lookup2 (create_interpolation_grid twoSquaresB 7).2.2 3 5 = some false ∧
      lookup2 (single_map_inside_mask twoSquaresB 7) 3 5 = some true) := by
  have hx : lookup2 (create_interpolation_grid twoSquaresB 7).1 3 5 = some 5 := by
    norm_num [lookup2, create_interpolation_grid, grid_xs, grid_ys, totalBounds,
      twoSquaresB, linspace, List.range_succ]
  have hy : lookup2 (create_interpolation_grid twoSquaresB 7).2.1 3 5 = some 1 := by
    norm_num [lookup2, create_interpolation_grid, grid_xs, grid_ys, totalBounds,
      twoSquaresB, linspace, List.range_succ]
  have hg : [((4 : ℚ), (0 : ℚ)), (6, 0), (6, 2), (4, 2)] ∈ twoSquaresB.geoms := by
    simp [twoSquaresB]
  have hin : polyContains [((4 : ℚ), (0 : ℚ)), (6, 0), (6, 2), (4, 2)] (5, 1) = true := by
    norm_num [polyContains, onBoundary, polyEdges, onSegment, crossingParityOdd, edgeCrosses]
  have hhead : polyContains (twoSquaresB.geoms.headD []) (5, 1) = false := by
    norm_num [polyContains, twoSquaresB, onBoundary, polyEdges, onSegment,
      crossingParityOdd, edgeCrosses]
  exact ⟨hx, hy, hg, hin, hhead,
    c10_theorem twoSquaresB 7 3 5 5 1 _ hx hy hg hin hhead⟩

/-! ### C7 -/

/-- C7 counterexample: with all twelve months selected in reverse order and
data present in every month, the GIF frame loop produces its 12 frames in
the multiselect's selection order, not in chronological ascending order;
and with all twelve months selected in default order but March absent from
the data, the loop produces its 11 frames with no empty-partition warning. -/
theorem c7_counterexample :
    (gif_frame_loop [12, 11, 10, 9, 8, 7, 6, 5, 4, 3, 2, 1] (fun _ => true)).1 =
      [12, 11, 10, 9, 8, 7, 6, 5, 4, 3, 2, 1] ∧
    (gif_frame_loop [12, 11, 10, 9, 8, 7, 6, 5, 4, 3, 2, 1] (fun _ => true)).1.length = 12 ∧
    ¬ List.Sorted (· ≤ ·)
      (gif_frame_loop [12, 11, 10, 9, 8, 7, 6, 5, 4, 3, 2, 1] (fun _ => true)).1 ∧
    (gif_frame_loop monthsDefault (fun m => decide (m ≠ 3))).2 = [] := by
  rw [gif_frame_loop_eq, gif_frame_loop_eq]
  refine ⟨rfl, rfl, ?_, rfl⟩
  decide

/-- C7 (amended): the animator's frame series follows the order of the
selected-months list (selection order), so with the default selection
(months 1–12 ascending) and data in every month it contains exactly 12
frames in chronological ascending order; with March absent it contains 11
frames and the loop reports no warning; the multi-map-grid page iterates
its (year, month) partitions in ascending lexicographic key order. -/
theorem c7_theorem :
    ((gif_frame_loop monthsDefault (fun _ => true)).1 = monthsDefault ∧
      (gif_frame_loop monthsDefault (fun _ => true)).1.length = 12 ∧
      List.Sorted (· < ·) (gif_frame_loop monthsDefault (fun _ => true)).1) ∧
    ((gif_frame_loop monthsDefault (fun m => decide (m ≠ 3))).1 =
        [1, 2, 4, 5, 6, 7, 8, 9, 10, 11, 12] ∧
      (gif_frame_loop monthsDefault (fun m => decide (m ≠ 3))).1.length = 11 ∧
      (gif_frame_loop monthsDefault (fun m => decide (m ≠ 3))).2 = []) ∧
    (∀ (months : List ℕ) (month_has_data : ℕ → Bool),
      (gif_frame_loop months month_has_data).1 = months.filter month_has_data) ∧
    (∀ keys : List (ℕ × ℕ), List.Sorted keyLE (groupby_keys keys)) := by
  refine ⟨⟨?_, ?_, ?_⟩, ⟨?_, ?_, ?_⟩, ?_, ?_⟩
  · rw [gif_frame_loop_eq]; rfl
  · rw [gif_frame_loop_eq]; rfl
  · rw [gif_frame_loop_eq]; decide
  · rw [gif_frame_loop_eq]; rfl
  · rw [gif_frame_loop_eq]; rfl
  · rw [gif_frame_loop_eq]
  · intro months month_has_data
    rw [gif_frame_loop_eq]
  · intro keys
    exact List.sorted_insertionSort keyLE keys.dedup

/-! ### C9 -/

/-- C9: modelled from the spec (the RBF fit itself lives in
`scipy.interpolate.Rbf`, outside the repository): with smoothing 0, any
weight vector that solves the RBF linear system makes the interpolant
reproduce every sample's value exactly at that sample's coordinates. -/
theorem c9_theorem (n : ℕ) (kernel : ℚ × ℚ → ℚ × ℚ → ℚ) (samples : Fin n → ℚ × ℚ)
    (w d : Fin n → ℚ) (h : rbfFitSolves n kernel samples 0 w d) (j : Fin n) :
    rbfEval n kernel samples w (samples j) = d j := by
  unfold rbfFitSolves at h
  have hj := congrFun h j
  have hM : (rbfSystemMatrix n kernel samples 0).mulVec w j
      = ∑ i, w i * kernel (samples j) (samples i) := by
    simp [Matrix.mulVec, Matrix.dotProduct, rbfSystemMatrix, mul_comm]
  unfold rbfEval
  rw [← hM, hj]

/-- C9 witness: two distinct samples with values 10 and 20 under a kernel
whose system matrix is the identity; the solving weights reproduce the
first sample's value exactly. -/
theorem c9_witness :
    rbfFitSolves 2 deltaKernel samplePts2 0 sampleVals2 sampleVals2 ∧
    rbfEval 2 deltaKernel samplePts2 sampleVals2 (samplePts2 0) = 10 := by
  have hfit : rbfFitSolves 2 deltaKernel samplePts2 0 sampleVals2 sampleVals2 := by
    unfold rbfFitSolves rbfSystemMatrix deltaKernel samplePts2 sampleVals2
    funext j
    fin_cases j <;>
      simp [Matrix.mulVec, Matrix.dotProduct, Fin.sum_univ_two, Prod.ext_iff]
  have hev := c9_theorem 2 deltaKernel samplePts2 sampleVals2 sampleVals2 hfit 0
  refine ⟨hfit, ?_⟩
  rw [hev]
  simp [sampleVals2]
